import Mathlib

/-
Shallow embedding of the urban_api territory / geometry subsystem.

Sources embedded here:
  - src/urban_api/schemas/geometries.py      (Crs, Geometry, Feature builders)
  - src/urban_api/logic/territories.py       (territory repository queries)
  - src/urban_api/logic/projects.py          (project / territory-detail service)
  - src/urban_api/db/entities/projects_data.py, projects_territory_data.py

Database tables are modelled as Lean lists of row structures; SQL statements
become pure functions over those lists; fallible endpoints return Except.
HTTP 404s raised through fastapi.HTTPException are modelled by an explicit
error constructor carrying the status code and detail string.
-/

namespace UrbanApi

/-! ## JSON values

Python dict/list/str/float values (as produced by json.loads and consumed by
pydantic) are modelled by a single inductive tree. -/

inductive JVal where
  | jnum (q : ℚ)
  | jstr (s : String)
  | jbool (b : Bool)
  | jnull
  | jarr (elems : List JVal)
  | jobj (fields : List (String × JVal))

/-- Opening curly brace character (kept out of literals). -/
def lbrace : Char := Char.ofNat 123

/-- Closing curly brace character. -/
def rbrace : Char := Char.ofNat 125

/-- Skip JSON whitespace. -/
def skipWs : List Char → List Char
  | c :: cs => if c = ' ' || c = '\n' || c = '\t' || c = '\r' then skipWs cs else c :: cs
  | [] => []

/-- Read a maximal run of decimal digits. -/
def readDigits : List Char → List Char × List Char
  | c :: cs =>
    if c.isDigit then
      let p := readDigits cs
      (c :: p.1, p.2)
    else ([], c :: cs)
  | [] => ([], [])

/-- Numeric value of a digit run. -/
def digitsToNat (ds : List Char) : Nat :=
  ds.foldl (fun a c => a * 10 + (c.toNat - 48)) 0

/-- Read a JSON number (optional minus sign, digits, optional fraction;
exponents are not modelled as the geometry payloads in scope never use them). -/
def readNumber (cs : List Char) : Option (ℚ × List Char) :=
  let signed : Bool × List Char :=
    match cs with
    | '-' :: rest => (true, rest)
    | _ => (false, cs)
  match readDigits signed.2 with
  | ([], _) => none
  | (ds, rest) =>
    let intPart : ℚ := (digitsToNat ds : ℚ)
    let vr : ℚ × List Char :=
      match rest with
      | '.' :: rest2 =>
        match readDigits rest2 with
        | ([], _) => (intPart, '.' :: rest2)
        | (fs, rest3) => (intPart + (digitsToNat fs : ℚ) / ((10 : ℚ) ^ fs.length), rest3)
      | _ => (intPart, rest)
    some (if signed.1 then -vr.1 else vr.1, vr.2)

/-- Read the remainder of a JSON string after the opening quote (escape
sequences are not modelled: the GeoJSON payloads in scope contain none). -/
def readStringChars : List Char → Option (List Char × List Char)
  | [] => none
  | c :: cs =>
    if c = '"' then some ([], cs)
    else
      match readStringChars cs with
      | some p => some (c :: p.1, p.2)
      | none => none

mutual

/-- Fuel-indexed JSON value parser (models Python json.loads). -/
def jparse : Nat → List Char → Option (JVal × List Char)
  | 0, _ => none
  | fuel+1, cs =>
    match skipWs cs with
    | [] => none
    | c :: rest =>
      if c = '"' then
        (readStringChars rest).map (fun p => (JVal.jstr (String.mk p.1), p.2))
      else if c = '[' then
        match skipWs rest with
        | ']' :: r2 => some (JVal.jarr [], r2)
        | r2 => (jparseArr fuel r2).map (fun p => (JVal.jarr p.1, p.2))
      else if c = lbrace then
        match skipWs rest with
        | d :: r3 =>
          if d = rbrace then some (JVal.jobj [], r3)
          else (jparseObj fuel (d :: r3)).map (fun p => (JVal.jobj p.1, p.2))
        | [] => none
      else if ['t', 'r', 'u', 'e'].isPrefixOf (c :: rest) then
        some (JVal.jbool true, rest.drop 3)
      else if ['f', 'a', 'l', 's', 'e'].isPrefixOf (c :: rest) then
        some (JVal.jbool false, rest.drop 4)
      else if ['n', 'u', 'l', 'l'].isPrefixOf (c :: rest) then
        some (JVal.jnull, rest.drop 3)
      else
        (readNumber (c :: rest)).map (fun p => (JVal.jnum p.1, p.2))

/-- Comma-separated JSON array elements up to the closing bracket. -/
def jparseArr : Nat → List Char → Option (List JVal × List Char)
  | 0, _ => none
  | fuel+1, cs =>
    match jparse fuel cs with
    | none => none
    | some (v, rest) =>
      match skipWs rest with
      | ',' :: r2 => (jparseArr fuel r2).map (fun p => (v :: p.1, p.2))
      | ']' :: r2 => some ([v], r2)
      | _ => none

/-- Comma-separated JSON object members up to the closing brace. -/
def jparseObj : Nat → List Char → Option (List (String × JVal) × List Char)
  | 0, _ => none
  | fuel+1, cs =>
    match skipWs cs with
    | '"' :: rest =>
      match readStringChars rest with
      | none => none
      | some (key, r2) =>
        match skipWs r2 with
        | ':' :: r3 =>
          match jparse fuel r3 with
          | none => none
          | some (v, r4) =>
            match skipWs r4 with
            | d :: r5 =>
              if d = ',' then (jparseObj fuel r5).map (fun p => ((String.mk key, v) :: p.1, p.2))
              else if d = rbrace then some ([(String.mk key, v)], r5)
              else none
            | [] => none
        | _ => none
    | _ => none

end

/-- Python json.loads on a whole string. -/
def jsonLoads (s : String) : Option JVal :=
  match jparse (s.length + 1) s.toList with
  | some (v, rest) => if (skipWs rest).isEmpty then some v else none
  | none => none

/-! ## Geometry model (src/urban_api/schemas/geometries.py, class Geometry)

The pydantic model has fields `type` (a Literal over the four tag strings,
default "Polygon") and `coordinates` (typed only as a list of anything, with
a sample polygon as default).  Validation therefore checks the tag against
the four literals and the payload against "being a list" but performs no
shape-vs-tag check; shape errors surface only in as_shapely_geometry. -/

inductive GeomTag where
  | point
  | polygon
  | multiPolygon
  | lineString
deriving DecidableEq, Repr

/-- The Literal type annotation of the pydantic field. -/
def parseGeomTag (s : String) : Option GeomTag :=
  if s = "Point" then some GeomTag.point
  else if s = "Polygon" then some GeomTag.polygon
  else if s = "MultiPolygon" then some GeomTag.multiPolygon
  else if s = "LineString" then some GeomTag.lineString
  else none

structure Geometry where
  type : GeomTag
  coordinates : List JVal

/-- Default value of the coordinates field in the source model. -/
def defaultCoordinates : List JVal :=
  [JVal.jarr
    [JVal.jarr [JVal.jnum (3022/100), JVal.jnum (5986/100)],
     JVal.jarr [JVal.jnum (3022/100), JVal.jnum (5985/100)],
     JVal.jarr [JVal.jnum (3025/100), JVal.jnum (5985/100)],
     JVal.jarr [JVal.jnum (3025/100), JVal.jnum (5986/100)],
     JVal.jarr [JVal.jnum (3022/100), JVal.jnum (5986/100)]]]

/-- Pydantic validation of explicit constructor arguments for the Geometry
model: the tag must be one of the four literals and the coordinates must be a
list; no coordinate-shape check is performed (none exists in the source).
Returns none for a pydantic ValidationError. -/
def geometryValidate (ty : String) (coords : JVal) : Option Geometry :=
  match parseGeomTag ty, coords with
  | some tag, JVal.jarr l => some (Geometry.mk tag l)
  | _, _ => none

/-- Pydantic validation of the Geometry model from a decoded JSON value
(the coercion applied to the geometry field of a Feature).  Absent fields
fall back to the model defaults, exactly as pydantic does. -/
def geometryFromJVal : Option JVal → Option Geometry
  | some (JVal.jobj fields) =>
    let tyv := (fields.find? (fun kv => kv.1 == "type")).map (fun kv => kv.2)
    let cov := (fields.find? (fun kv => kv.1 == "coordinates")).map (fun kv => kv.2)
    let ty : Option GeomTag :=
      match tyv with
      | none => some GeomTag.polygon
      | some (JVal.jstr s) => parseGeomTag s
      | some _ => none
    let co : Option (List JVal) :=
      match cov with
      | none => some defaultCoordinates
      | some (JVal.jarr l) => some l
      | some _ => none
    match ty, co with
    | some t, some l => some (Geometry.mk t l)
    | _, _ => none
  | _ => none

/-- Shapely geometry objects, the native form produced by as_shapely_geometry. -/
inductive Shapely where
  | point (x y : ℚ)
  | polygon (ring : List (ℚ × ℚ))
  | multiPolygon (polys : List (List (ℚ × ℚ)))
  | lineString (pts : List (ℚ × ℚ))

/-- A coordinate pair [x, y]. -/
def coordPair : JVal → Option (ℚ × ℚ)
  | JVal.jarr [JVal.jnum x, JVal.jnum y] => some (x, y)
  | _ => none

/-- A linear ring: a list value all of whose elements are coordinate pairs. -/
def coordRing : JVal → Option (List (ℚ × ℚ))
  | JVal.jarr l => l.mapM coordPair
  | _ => none

/-- Geometry.as_shapely_geometry: dispatch on the tag and hand the payload to
the corresponding shapely constructor.  Shapely raises when the payload does
not have the shape the constructor expects; those failures are modelled as
none.  geom.Polygon indexes coordinates[0] (an IndexError on an empty list)
and requires a ring of at least 3 coordinate pairs; geom.LineString requires
at least 2 pairs; geom.Point requires a flat pair of numbers. -/
def Geometry.as_shapely_geometry (g : Geometry) : Option Shapely :=
  match g.type with
  | GeomTag.point =>
    match g.coordinates with
    | [JVal.jnum x, JVal.jnum y] => some (Shapely.point x y)
    | _ => none
  | GeomTag.polygon =>
    match g.coordinates with
    | ring0 :: _ =>
      match coordRing ring0 with
      | some ring => if 3 ≤ ring.length then some (Shapely.polygon ring) else none
      | none => none
    | [] => none
  | GeomTag.multiPolygon =>
    match g.coordinates.mapM (fun poly =>
      match poly with
      | JVal.jarr (shell :: _) =>
        match coordRing shell with
        | some ring => if 3 ≤ ring.length then some ring else none
        | none => none
      | _ => none) with
    | some polys => some (Shapely.multiPolygon polys)
    | none => none
  | GeomTag.lineString =>
    match g.coordinates.mapM coordPair with
    | some pts => if 2 ≤ pts.length then some (Shapely.lineString pts) else none
    | none => none

/-! ## Crs (src/urban_api/schemas/geometries.py, class Crs)

The code accessor slices the name after the LAST colon when a colon is
present, and otherwise hands the WHOLE name to int(). -/

inductive CrsError where
  | invalidCrs (name : String)
deriving DecidableEq, Repr

/-- Python int() applied to a plain decimal string: an optional sign followed
by a nonempty digit run (surrounding whitespace and underscores, accepted by
Python but never occurring in CRS names, are not modelled). -/
def pyInt (cs : List Char) : Option Int :=
  let body : Bool × List Char :=
    match cs with
    | '-' :: rest => (true, rest)
    | '+' :: rest => (false, rest)
    | _ => (false, cs)
  if body.2.isEmpty then none
  else if body.2.all Char.isDigit then
    some (if body.1 then -(digitsToNat body.2 : Int) else (digitsToNat body.2 : Int))
  else none

/-- Python str.rindex(c): index of the last occurrence. -/
def rindexColon (cs : List Char) : Option Nat :=
  match cs.reverse.findIdx? (fun c => c == ':') with
  | some j => some (cs.length - 1 - j)
  | none => none

/-- The slice name[rindex + 1 :] taken by the source. -/
def afterLastColonSlice (cs : List Char) : List Char :=
  match rindexColon cs with
  | some i => cs.drop (i + 1)
  | none => cs

/-- Crs.code: parse the trailing integer after the last colon if the name
contains one, otherwise parse the whole name; any parse failure raises
(ValueError wrapping the original exception, surfaced as the invalid-CRS
error of the spec). -/
def crsCode (name : String) : Except CrsError Int :=
  let cs := name.toList
  let sub := if cs.contains ':' then afterLastColonSlice cs else cs
  match pyInt sub with
  | some k => Except.ok k
  | none => Except.error (CrsError.invalidCrs name)

/-- The designated substring described by the amended wording: the suffix
after the last colon when one is present, otherwise the whole name. -/
def crsCodeSpec (name : String) : Except CrsError Int :=
  let cs := name.toList
  let sub := if cs.contains ':' then (cs.reverse.takeWhile (fun c => c != ':')).reverse else cs
  match pyInt sub with
  | some k => Except.ok k
  | none => Except.error (CrsError.invalidCrs name)



/-! ## Territories data model (db entity territories_data and its queries in
src/urban_api/logic/territories.py)

A territory row carries every column of the select lists; parent_id is the
integer parent reference with 0 standing for the absent root parent, as the
endpoints compare it against the literal 0. -/

inductive ApiError where
  | httpException (status_code : Nat) (detail : String)
  | unionColumnsMismatch (seed_columns continuation_columns : Nat)

structure Territory where
  territory_id : Nat
  territory_type_id : Option Nat
  parent_id : Nat
  name : String
  geometry : Geometry
  level : Nat
  properties : List (String × JVal)
  centre_point : Geometry
  admin_center : Option Nat
  okato_code : Option String

/-- Request body of the territory creation endpoint. -/
structure TerritoriesDataPost where
  territory_type_id : Option Nat
  parent_id : Nat
  name : String
  geometry : Geometry
  level : Nat
  properties : List (String × JVal)
  centre_point : Geometry
  admin_center : Option Nat
  okato_code : Option String

/-- Territory store: the table rows plus the next value of the id sequence
backing the generated primary key. -/
structure TerrState where
  territories : List Territory
  nextId : Nat

/-- get_territory_by_id_from_db: single-row fetch, 404 when absent. -/
def get_territory_by_id_from_db (ts : List Territory) (territory_id : Nat) :
    Except ApiError Territory :=
  match ts.find? (fun t => t.territory_id == territory_id) with
  | some t => Except.ok t
  | none => Except.error (ApiError.httpException 404 "Given id is not found")

/-- add_territory_to_db: insert the new row (committing it) and only then,
for a non-zero parent_id, check that the parent exists in the now-updated
table; on failure delete the row just created and raise 404; on success
re-read through get_territory_by_id_from_db.  The post-insert check runs
against the table that already contains the new row. -/
def add_territory_to_db (st : TerrState) (territory : TerritoriesDataPost) :
    Except ApiError Territory × TerrState :=
  let newT : Territory :=
    { territory_id := st.nextId,
      territory_type_id := territory.territory_type_id,
      parent_id := territory.parent_id,
      name := territory.name,
      geometry := territory.geometry,
      level := territory.level,
      properties := territory.properties,
      centre_point := territory.centre_point,
      admin_center := territory.admin_center,
      okato_code := territory.okato_code }
  let st1 : TerrState := { territories := st.territories ++ [newT], nextId := st.nextId + 1 }
  if territory.parent_id != 0 &&
      !(st1.territories.any (fun t => t.territory_id == territory.parent_id)) then
    let st2 : TerrState :=
      { st1 with territories := st1.territories.filter (fun t => t.territory_id != st.nextId) }
    (Except.error (ApiError.httpException 404 "Given parent_id is not found"), st2)
  else
    (get_territory_by_id_from_db st1.territories st.nextId, st1)

/-- One round of the recursive CTE: rows of the table whose parent is already
in the accumulated result and that are not yet in it (by id). -/
def cteNewRows (ts acc : List Territory) : List Territory :=
  ts.filter (fun t =>
    acc.any (fun a => t.parent_id == a.territory_id) &&
    !(acc.any (fun a => a.territory_id == t.territory_id)))

/-- Frontier iteration of the recursive CTE until no new rows are produced
(or the fuel runs out; the fuel passed below always suffices because each
round adds at least one of finitely many table rows). -/
def cteIter (ts : List Territory) : Nat → List Territory → List Territory
  | 0, acc => acc
  | n + 1, acc =>
    let nw := cteNewRows ts acc
    if nw.isEmpty then acc else cteIter ts n (acc ++ nw)

/-- The recursive territories_recursive CTE: seeded with the direct children
of parent_id, then saturated through the join of the recursive part on
territories_data.parent_id = cte.territory_id. -/
def territoriesRecursiveCte (ts : List Territory) (parent_id : Nat) : List Territory :=
  cteIter ts ts.length (ts.filter (fun t => t.parent_id == parent_id))

/-- get_territories_by_parent_id_from_db: for a non-zero parent validate its
existence first (404 otherwise); then either the recursive CTE (when
get_all_levels and the parent is non-zero) or the direct-children select;
finally the optional territory-type equality predicate.  In the recursive
branch the source attaches that predicate to a fresh select over the CTE yet
references the territories_data column, which drags territories_data into the
FROM list as a cross join: each CTE row is then produced once per territory
of the requested type. -/
def get_territories_by_parent_id_from_db (ts : List Territory) (parent_id : Nat)
    (get_all_levels : Bool) (territory_type_id : Option Nat) :
    Except ApiError (List Territory) :=
  if parent_id != 0 && !(ts.any (fun t => t.territory_id == parent_id)) then
    Except.error (ApiError.httpException 404 "Given parent id is not found")
  else
    let rows :=
      if get_all_levels && parent_id != 0 then territoriesRecursiveCte ts parent_id
      else ts.filter (fun t => t.parent_id == parent_id)
    let rows2 :=
      match territory_type_id with
      | some k =>
        if get_all_levels && parent_id != 0 then
          ((ts.filter (fun t => t.territory_type_id == some k)).map (fun _ => rows)).flatten
        else
          rows.filter (fun t => t.territory_type_id == some k)
      | none => rows
    Except.ok rows2

/-- Columns selected by every select of get_territories_by_parent_id_from_db
(geometry and centre_point cast to GeoJSON). -/
def territories_geojson_select_columns : List String :=
  ["territory_id", "territory_type_id", "parent_id", "name", "geometry",
   "level", "properties", "centre_point", "admin_center", "okato_code"]

/-- Columns of the seed select of the recursive CTE in the without-geometry
variant (source lines 533-542): no geometry, no centre_point. -/
def without_geometry_seed_select_columns : List String :=
  ["territory_id", "territory_type_id", "parent_id", "name",
   "level", "properties", "admin_center", "okato_code"]

/-- Columns of the recursive continuation select of the without-geometry
variant (source lines 544-554): geometry and centre_point ARE selected. -/
def without_geometry_recursive_select_columns : List String :=
  ["territory_id", "territory_type_id", "parent_id", "name", "geometry",
   "level", "properties", "centre_point", "admin_center", "okato_code"]

/-- Columns of the non-recursive select of the without-geometry variant
(source lines 565-574). -/
def without_geometry_plain_select_columns : List String :=
  ["territory_id", "territory_type_id", "parent_id", "name",
   "level", "properties", "admin_center", "okato_code"]

/-- get_territories_without_geometry_by_parent_id_from_db: same 404 check and
row predicates as the geometry variant, no territory-type parameter.  In the
recursive branch the source unions the 8-column seed (no geometry, no
centre_point) with a 10-column continuation that still selects both, and a
UNION of selects with different column counts is rejected when the statement
runs, so that branch raises a database error instead of returning rows; only
the non-recursive select (also taken at the root parent) produces rows. -/
def get_territories_without_geometry_by_parent_id_from_db (ts : List Territory)
    (parent_id : Nat) (get_all_levels : Bool) : Except ApiError (List Territory) :=
  if parent_id != 0 && !(ts.any (fun t => t.territory_id == parent_id)) then
    Except.error (ApiError.httpException 404 "Given parent id is not found")
  else if get_all_levels && parent_id != 0 then
    Except.error (ApiError.unionColumnsMismatch
      without_geometry_seed_select_columns.length
      without_geometry_recursive_select_columns.length)
  else
    Except.ok (ts.filter (fun t => t.parent_id == parent_id))

/-- Transitive parent chains: the ids whose chain of parent links inside the
table reaches root. -/
inductive ParentChain (ts : List Territory) (root : Nat) : Nat → Prop where
  | base {t : Territory} (ht : t ∈ ts) (hp : t.parent_id = root) :
      ParentChain ts root t.territory_id
  | step {t : Territory} (ht : t ∈ ts) (hc : ParentChain ts root t.parent_id) :
      ParentChain ts root t.territory_id

/-! ## Services capacity (get_services_capacity_by_territory_id_from_db) -/

structure ServiceRow where
  service_id : Nat
  service_type_id : Option Nat
  capacity_real : Int

structure UrbanObjectRow where
  urban_object_id : Nat
  service_id : Nat
  physical_object_id : Nat
  object_geometry_id : Nat

structure ObjectGeometryRow where
  object_geometry_id : Nat
  territory_id : Nat

structure UrbanDb where
  territories : List Territory
  services : List ServiceRow
  urban_objects : List UrbanObjectRow
  object_geometries : List ObjectGeometryRow

/-- The join services_data - urban_objects_data - object_geometries_data
restricted to one territory, as written in the capacity query. -/
def joinedServices (db : UrbanDb) (territory_id : Nat) : List ServiceRow :=
  (db.services.map (fun s =>
    (db.urban_objects.map (fun u =>
      db.object_geometries.filterMap (fun og =>
        if s.service_id == u.service_id && u.object_geometry_id == og.object_geometry_id &&
            og.territory_id == territory_id then some s else none))).flatten)).flatten

/-- get_services_capacity_by_territory_id_from_db: validate the territory,
then SUM(capacity_real) over the join with the predicate
services_data.service_type_id == service_type_id.  When the parameter is
None, SQLAlchemy compiles the equality against the Python None into an
IS NULL predicate, so only services with a null type id survive; SQL SUM
over the empty set is NULL, modelled as none. -/
def get_services_capacity_by_territory_id_from_db (db : UrbanDb) (territory_id : Nat)
    (service_type_id : Option Nat) : Except ApiError (Option Int) :=
  if !(db.territories.any (fun t => t.territory_id == territory_id)) then
    Except.error (ApiError.httpException 404 "Given territory id is not found")
  else
    let rows := (joinedServices db territory_id).filter (fun s =>
      match service_type_id with
      | some k => s.service_type_id == some k
      | none => s.service_type_id.isNone)
    Except.ok (if rows.isEmpty then none else some ((rows.map (fun s => s.capacity_real)).sum))

/-- The aggregate described by the claim for an absent service type: the
unfiltered sum of capacity over ALL services joined to the territory
(written from the claim wording, for comparison). -/
def unfilteredCapacitySum (db : UrbanDb) (territory_id : Nat) : Option Int :=
  let rows := joinedServices db territory_id
  if rows.isEmpty then none else some ((rows.map (fun s => s.capacity_real)).sum)

/-- The aggregate the code actually computes for an absent service type:
the sum over joined services whose service_type_id is null (written from the
amended wording, for comparison). -/
def nullTypeCapacitySum (db : UrbanDb) (territory_id : Nat) : Option Int :=
  let rows := (joinedServices db territory_id).filter (fun s => s.service_type_id.isNone)
  if rows.isEmpty then none else some ((rows.map (fun s => s.capacity_real)).sum)

/-! ## Projects and territory details (src/urban_api/logic/projects.py) -/

inductive ProjError where
  | httpException (status_code : Nat) (detail : String)
  | typeError

structure ProjectRow where
  project_id : Nat
  user_id : Nat
  name : String
  project_territory_id : Nat
  description : Option String
  public : Bool
  image_url : Option String
  created_at : Nat
  updated_at : Nat

structure ProjectTerritoryRow where
  project_territory_id : Nat
  parent_id : Option Nat
  geometry : Geometry
  centre_point : Geometry
  properties : List (String × JVal)

structure ProjState where
  projects : List ProjectRow
  details : List ProjectTerritoryRow

/-- get_project_by_id_from_db: single-row fetch, 404 when absent. -/
def get_project_by_id_from_db (projects : List ProjectRow) (project_id : Nat) :
    Except ProjError ProjectRow :=
  match projects.find? (fun p => p.project_id == project_id) with
  | some p => Except.ok p
  | none => Except.error (ProjError.httpException 404 "Given id is not found")

/-- get_project_territory_by_id_from_db: look the project up with .one()
(which raises when no row exists, caught and turned into a 404), then fetch
the territory detail with .one_or_none().  one_or_none returns None for a
missing row WITHOUT raising, so the surrounding try/except does not fire and
the DTO construction ProjectTerritoryDTO(**None) raises a TypeError instead
of the intended 404. -/
def get_project_territory_by_id_from_db (st : ProjState) (project_id : Nat) :
    Except ProjError ProjectTerritoryRow :=
  match st.projects.find? (fun p => p.project_id == project_id) with
  | none => Except.error (ProjError.httpException 404 "Given id is not found in projects_data")
  | some proj =>
    match st.details.find? (fun d => d.project_territory_id == proj.project_territory_id) with
    | none => Except.error ProjError.typeError
    | some d => Except.ok d

/-- Partial update body for the nested territory-detail part.  The outer
Option models whether the field was explicitly set (pydantic exclude_unset);
the inner Option is the transmitted value, which may itself be null. -/
structure ProjectTerritoryPatch where
  parent_id : Option (Option Nat) := none
  geometry : Option (Option Geometry) := none
  centre_point : Option (Option Geometry) := none
  properties : Option (Option (List (String × JVal))) := none

/-- Partial update body for the project itself; the source keeps only the
fields whose dumped value is not None, so a single Option per field
suffices. -/
structure ProjectPatch where
  user_id : Option Nat := none
  name : Option String := none
  description : Option String := none
  public : Option Bool := none
  image_url : Option String := none
  project_territory_info : Option ProjectTerritoryPatch := none

/-- Update statements the patch endpoint may issue. -/
inductive Stmt where
  | updateProjectsData
  | updateProjectsTerritoryData
deriving DecidableEq, Repr

/-- new_values_for_project: the non-None dumped fields. -/
structure ProjectNewValues where
  user_id : Option Nat := none
  name : Option String := none
  description : Option String := none
  public : Option Bool := none
  image_url : Option String := none

/-- Emptiness of the collected project values (the dict truthiness test). -/
def ProjectNewValues.isEmpty (v : ProjectNewValues) : Bool :=
  v.user_id.isNone && v.name.isNone && v.description.isNone &&
  v.public.isNone && v.image_url.isNone

/-- Collect new_values_for_project from the patch body. -/
def projectNewValues (p : ProjectPatch) : ProjectNewValues :=
  { user_id := p.user_id, name := p.name, description := p.description,
    public := p.public, image_url := p.image_url }

/-- new_values_for_territory: the explicitly set fields of the nested body;
geometry and centre_point go through shapely conversion when non-None and
fall into the generic else branch (writing the null through) otherwise. -/
structure TerritoryNewValues where
  parent_id : Option (Option Nat) := none
  geometry : Option (Option Geometry) := none
  centre_point : Option (Option Geometry) := none
  properties : Option (Option (List (String × JVal))) := none

/-- Emptiness of the collected territory values. -/
def TerritoryNewValues.isEmpty (v : TerritoryNewValues) : Bool :=
  v.parent_id.isNone && v.geometry.isNone && v.centre_point.isNone && v.properties.isNone

/-- Collect new_values_for_territory from the optional nested body. -/
def territoryNewValues : Option ProjectTerritoryPatch → TerritoryNewValues
  | none => {}
  | some info =>
    { parent_id := info.parent_id,
      geometry := info.geometry,
      centre_point := info.centre_point,
      properties := info.properties }

/-- Apply the collected project values to one row, stamping updated_at. -/
def applyProjectUpdate (nv : ProjectNewValues) (now : Nat) (p : ProjectRow) : ProjectRow :=
  { p with
    user_id := nv.user_id.getD p.user_id,
    name := nv.name.getD p.name,
    description := match nv.description with | some d => some d | none => p.description,
    public := nv.public.getD p.public,
    image_url := match nv.image_url with | some u => some u | none => p.image_url,
    updated_at := now }

/-- Apply the collected territory values to one detail row.  Writing an
explicit null into the NOT NULL geometry columns would be rejected by the
database; that failure mode is outside the claims and the row keeps its
value in that branch. -/
def applyTerritoryUpdate (nv : TerritoryNewValues) (d : ProjectTerritoryRow) :
    ProjectTerritoryRow :=
  { d with
    parent_id := match nv.parent_id with | some v => v | none => d.parent_id,
    geometry := match nv.geometry with | some (some g) => g | some none => d.geometry | none => d.geometry,
    centre_point := match nv.centre_point with | some (some g) => g | some none => d.centre_point | none => d.centre_point,
    properties := match nv.properties with | some (some pr) => pr | some none => d.properties | none => d.properties }

/-- Everything patch_project_to_db produces: the endpoint result, the store
afterwards, and the update statements it executed. -/
structure PatchResult where
  result : Except ProjError ProjectRow
  state : ProjState
  trace : List Stmt

/-- patch_project_to_db: 404 when the project is absent; gather the two
new-value dicts; run each update only when its dict is non-empty (the
project update also stamps updated_at); finally re-read the project. -/
def patch_project_to_db (st : ProjState) (project : ProjectPatch) (project_id : Nat)
    (now : Nat) : PatchResult :=
  match st.projects.find? (fun p => p.project_id == project_id) with
  | none =>
    { result := Except.error (ProjError.httpException 404 "Given project_id is not found"),
      state := st, trace := [] }
  | some requested_project =>
    let npv := projectNewValues project
    let ntv := territoryNewValues project.project_territory_info
    let p2 : List ProjectRow × List Stmt :=
      if npv.isEmpty then (st.projects, [])
      else
        (st.projects.map (fun p =>
          if p.project_id == project_id then applyProjectUpdate npv now p else p),
         [Stmt.updateProjectsData])
    let d2 : List ProjectTerritoryRow × List Stmt :=
      if ntv.isEmpty then (st.details, [])
      else
        (st.details.map (fun d =>
          if d.project_territory_id == requested_project.project_territory_id then
            applyTerritoryUpdate ntv d
          else d),
         [Stmt.updateProjectsTerritoryData])
    { result := get_project_by_id_from_db p2.1 project_id,
      state := { projects := p2.1, details := d2.1 },
      trace := p2.2 ++ d2.2 }

/-- The patch body containing only a name, the shape claim C9 speaks about. -/
def namePatch (x : String) : ProjectPatch := { name := some x }

/-! ## Feature builders (src/urban_api/schemas/geometries.py, class Feature)

A database row or series is an association list from column names to cell
values, where a none cell is SQL NULL / Python None. -/

/-- One row of named cells. -/
abbrev FRow : Type := List (String × Option JVal)

/-- Failures of the three Feature constructors. -/
inductive FeatureErr where
  | keyError (key : String)
  | jsonDecodeError
  | validationError
deriving DecidableEq, Repr

/-- Python mapping lookup: some cell when the key is present, none for the
KeyError case. -/
def rowGet (r : FRow) (k : String) : Option (Option JVal) :=
  (r.find? (fun kv => kv.1 == k)).map (fun kv => kv.2)

/-- The isinstance(geometry, str) branch: decode a raw text payload with
json.loads before geometry parsing, pass anything else through. -/
def decodeIfStr : Option JVal → Except FeatureErr (Option JVal)
  | some (JVal.jstr s) =>
    match jsonLoads s with
    | some v => Except.ok (some v)
    | none => Except.error FeatureErr.jsonDecodeError
  | v => Except.ok v

/-- The constructed Feature: a validated geometry plus the remaining
properties. -/
structure FeatureModel where
  geometry : Geometry
  properties : FRow

/-- Pydantic construction of the Feature model: the geometry field must
validate as a Geometry (a None geometry is rejected because the field is not
optional). -/
def buildFeature (geometry : Option JVal) (properties : FRow) :
    Except FeatureErr FeatureModel :=
  match geometryFromJVal geometry with
  | some g => Except.ok { geometry := g, properties := properties }
  | none => Except.error FeatureErr.validationError

/-- Feature.from_dict: copy the mapping, drop null properties when
include_nulls is false, then look the geometry column up (a KeyError when the
null filter already dropped it), delete it from the properties, decode a
textual payload and construct the Feature. -/
def Feature.from_dict (feature : FRow) (geometry_column : String)
    (include_nulls : Bool) : Except FeatureErr FeatureModel :=
  let properties :=
    if include_nulls then feature else feature.filter (fun kv => kv.2.isSome)
  match rowGet properties geometry_column with
  | none => Except.error (FeatureErr.keyError geometry_column)
  | some geometry =>
    let properties2 := properties.filter (fun kv => !(kv.1 == geometry_column))
    match decodeIfStr geometry with
    | Except.error e => Except.error e
    | Except.ok geometry2 => buildFeature geometry2 properties2

/-- Feature.from_series: series.to_dict() then the same steps as from_dict. -/
def Feature.from_series (series : FRow) (geometry_column : String)
    (include_nulls : Bool) : Except FeatureErr FeatureModel :=
  let properties := series
  let properties :=
    if include_nulls then properties else properties.filter (fun kv => kv.2.isSome)
  match rowGet properties geometry_column with
  | none => Except.error (FeatureErr.keyError geometry_column)
  | some geometry =>
    let properties2 := properties.filter (fun kv => !(kv.1 == geometry_column))
    match decodeIfStr geometry with
    | Except.error e => Except.error e
    | Except.ok geometry2 => buildFeature geometry2 properties2

/-- Feature.from_row: read the geometry column FIRST from the raw row (a
KeyError only when the column itself is absent), decode it, then build the
properties with or without the null filter. -/
def Feature.from_row (row : FRow) (geometry_column : String)
    (include_nulls : Bool) : Except FeatureErr FeatureModel :=
  match rowGet row geometry_column with
  | none => Except.error (FeatureErr.keyError geometry_column)
  | some geometry =>
    match decodeIfStr geometry with
    | Except.error e => Except.error e
    | Except.ok geometry2 =>
      let properties :=
        if include_nulls then row.filter (fun kv => !(kv.1 == geometry_column))
        else row.filter (fun kv => !(kv.1 == geometry_column) && kv.2.isSome)
      buildFeature geometry2 properties


/-! ## Concrete fixtures used by witnesses and counterexamples -/

/-- A trivial geometry payload for fixture rows. -/
def tgeom : Geometry := Geometry.mk GeomTag.point []

/-- Depth-1 fixture territory (a root). -/
def wt1 : Territory :=
  { territory_id := 1, territory_type_id := none, parent_id := 0, name := "region",
    geometry := tgeom, level := 1, properties := [], centre_point := tgeom,
    admin_center := none, okato_code := none }

/-- Depth-2 fixture territory, child of wt1. -/
def wt2 : Territory := { wt1 with territory_id := 2, parent_id := 1, level := 2 }

/-- Depth-3 fixture territory, child of wt2. -/
def wt3 : Territory := { wt1 with territory_id := 3, parent_id := 2, level := 3 }

/-- Three-level fixture store. -/
def wts : List Territory := [wt1, wt2, wt3]

/-- Creation spec whose parent id equals the id the sequence of the empty
store will generate. -/
def selfParentPost : TerritoriesDataPost :=
  { territory_type_id := none, parent_id := 1, name := "loop", geometry := tgeom,
    level := 1, properties := [], centre_point := tgeom, admin_center := none,
    okato_code := none }

/-- Creation spec naming the absent parent 5. -/
def missingParentPost : TerritoriesDataPost := { selfParentPost with parent_id := 5 }

/-- Fixture database with one service (non-null type, capacity 5) joined to
territory 1. -/
def capDb : UrbanDb :=
  { territories := [wt1],
    services := [{ service_id := 10, service_type_id := some 1, capacity_real := 5 }],
    urban_objects := [{ urban_object_id := 20, service_id := 10,
                        physical_object_id := 30, object_geometry_id := 40 }],
    object_geometries := [{ object_geometry_id := 40, territory_id := 1 }] }

/-- Fixture project referencing territory detail 5. -/
def c1Project : ProjectRow :=
  { project_id := 1, user_id := 7, name := "proj", project_territory_id := 5,
    description := none, public := true, image_url := none, created_at := 0,
    updated_at := 0 }

/-- Fixture territory detail row with id 5. -/
def c9Detail : ProjectTerritoryRow :=
  { project_territory_id := 5, parent_id := none, geometry := tgeom,
    centre_point := tgeom, properties := [] }

/-- Fixture row whose geometry cell is null. -/
def nullGeomRow : FRow := [("geometry", none), ("population", some (JVal.jnum 3))]

/-! ## Claim C6 (geometry shape/tag mismatch) -/

/-- C6 counterexample: a Point-shaped payload under the Polygon tag is
accepted by pydantic validation and a mismatched Geometry value IS
constructed, contrary to the claim that parsing fails with
GeometryFormatError and such a value is never constructed. -/
theorem geometry_mismatched_payload_is_constructed :
    geometryValidate "Polygon" (JVal.jarr [JVal.jnum 30, JVal.jnum 59]) =
      some (Geometry.mk GeomTag.polygon [JVal.jnum 30, JVal.jnum 59]) := rfl

/-- C6 (amended): validation of the Geometry model accepts any list payload
under a recognised tag without a shape check, so a mismatched Geometry is
constructed; the shape/tag mismatch instead makes conversion to the native
shapely form fail, as witnessed on the Point-payload-under-Polygon-tag
family. -/
theorem geometry_mismatch_fails_at_conversion :
    (∀ l : List JVal,
      geometryValidate "Polygon" (JVal.jarr l) = some (Geometry.mk GeomTag.polygon l)) ∧
    (∀ x y : ℚ,
      (Geometry.mk GeomTag.polygon [JVal.jnum x, JVal.jnum y]).as_shapely_geometry = none) :=
  ⟨fun _ => rfl, fun _ _ => rfl⟩

/-! ## Claim C7 (Crs.code) -/

/-- If p finds its first hit at index j then takeWhile of the negation is
exactly the prefix of length j. -/
theorem takeWhile_not_eq_take_findIdx {α : Type} (p : α → Bool) (l : List α) :
    l.takeWhile (fun x => !p x) = l.take (l.findIdx p) := by
  induction l with
  | nil => simp
  | cons a l ih =>
    by_cases h : p a
    · simp [List.findIdx_cons, h, List.takeWhile_cons]
    · simp [List.findIdx_cons, h, List.takeWhile_cons, ih]

/-- The slice after the last colon computed through rindex agrees with the
reverse/takeWhile characterisation, whenever a colon is present. -/
theorem afterLastColonSlice_eq_takeWhile (cs : List Char) (h : ':' ∈ cs) :
    afterLastColonSlice cs = (cs.reverse.takeWhile (fun c => c != ':')).reverse := by
  have hmem : ':' ∈ cs.reverse := List.mem_reverse.2 h
  have hany : cs.reverse.any (fun c => c == ':') = true :=
    List.any_eq_true.2 ⟨':', hmem, by simp⟩
  have hsome : (cs.reverse.findIdx? (fun c => c == ':')).isSome = true := by
    rw [List.findIdx?_isSome, hany]
  obtain ⟨j, hj⟩ := Option.isSome_iff_exists.1 hsome
  have hj2 := List.findIdx?_eq_some_iff_findIdx_eq.1 hj
  have hjlt : j < cs.length := by
    have := hj2.1
    simpa using this
  have htake : (cs.reverse.takeWhile (fun c => c != ':')) = cs.reverse.take j := by
    have := takeWhile_not_eq_take_findIdx (fun c => c == ':') cs.reverse
    rw [hj2.2] at this
    exact this
  have hdrop : (cs.reverse.take j).reverse = cs.drop (cs.length - j) := by
    have := @List.reverse_take Char cs.reverse j
    simpa using this
  rw [htake, hdrop]
  unfold afterLastColonSlice rindexColon
  rw [hj]
  have harith : cs.length - 1 - j + 1 = cs.length - j := by omega
  show List.drop (cs.length - 1 - j + 1) cs = List.drop (cs.length - j) cs
  rw [harith]

/-- C7 counterexample: a CRS name with no colon but a numeric body does NOT
raise; the accessor parses the whole name, contrary to the claim that the
error is raised whenever no colon is present. -/
theorem crsCode_no_colon_numeric_ok :
    crsCode "4326" = Except.ok 4326 ∧ ("4326".toList.contains ':') = false :=
  ⟨rfl, rfl⟩

/-- C7 (amended): the code accessor returns the integer parsed from the
substring after the last colon when the name contains a colon, and otherwise
the integer parsed from the entire name; it raises the invalid-CRS error
exactly when that designated substring is non-numeric. -/
theorem crsCode_eq_spec (name : String) : crsCode name = crsCodeSpec name := by
  by_cases h : name.toList.contains ':' = true
  · have hmem : ':' ∈ name.toList := by
      have h2 : name.toList.elem ':' = true := h
      exact (List.elem_iff).1 h2
    simp only [crsCode, crsCodeSpec, h, if_true,
      afterLastColonSlice_eq_takeWhile name.toList hmem]
  · simp only [crsCode, crsCodeSpec, h, Bool.false_eq_true, if_false]


/-! ## Claim C1 (getTerritoryDetail error behaviour) -/

/-- C1: evaluation at the failing input: when the project row exists but its
territory detail row does not, the lookup fails with the TypeError coming
from ProjectTerritoryDTO(**None) (one_or_none returns None without raising,
so the 404 except branch is dead), not with the 404 the claim states; a
missing project row does produce the 404 of the first step. -/
theorem get_project_territory_missing_detail_type_error :
    get_project_territory_by_id_from_db (ProjState.mk [c1Project] []) 1 =
      Except.error ProjError.typeError ∧
    get_project_territory_by_id_from_db (ProjState.mk [c1Project] []) 2 =
      Except.error (ProjError.httpException 404 "Given id is not found in projects_data") :=
  ⟨rfl, rfl⟩

/-! ## Claim C2 (without-geometry projection) -/

/-- C2 counterexample: the recursive continuation query of the
without-geometry listing selects the geometry and centre_point columns,
refuting the claim that no query it issues selects them. -/
theorem without_geometry_recursive_query_selects_geometry :
    "geometry" ∈ without_geometry_recursive_select_columns ∧
    "centre_point" ∈ without_geometry_recursive_select_columns := by
  constructor <;> simp [without_geometry_recursive_select_columns]

/-- C2 (amended): wherever the without-geometry listing returns rows (the
non-recursive call for any parent, and any call at the root parent 0) it
returns exactly the rows of the plain listing with no type filter, through a
projection without geometry or centre_point; but with the recursive flag and
an existing non-zero parent the call returns no rows at all: its CTE unions
an 8-column seed with a 10-column continuation that still selects geometry
and centre_point, and the mismatched union is rejected by the engine. -/
theorem without_geometry_projection_and_recursive_union_error (ts : List Territory)
    (parent_id : Nat) (h0 : parent_id ≠ 0)
    (hex : ts.any (fun t => t.territory_id == parent_id) = true) :
    get_territories_without_geometry_by_parent_id_from_db ts parent_id true =
      Except.error (ApiError.unionColumnsMismatch
        without_geometry_seed_select_columns.length
        without_geometry_recursive_select_columns.length) ∧
    (∀ (ts1 : List Territory) (pid1 : Nat),
      get_territories_without_geometry_by_parent_id_from_db ts1 pid1 false =
        get_territories_by_parent_id_from_db ts1 pid1 false none) ∧
    (∀ (ts1 : List Territory) (lvl1 : Bool),
      get_territories_without_geometry_by_parent_id_from_db ts1 0 lvl1 =
        get_territories_by_parent_id_from_db ts1 0 lvl1 none) ∧
    "geometry" ∉ without_geometry_plain_select_columns ∧
    "centre_point" ∉ without_geometry_plain_select_columns ∧
    "geometry" ∉ without_geometry_seed_select_columns ∧
    "centre_point" ∉ without_geometry_seed_select_columns ∧
    "geometry" ∈ without_geometry_recursive_select_columns ∧
    "centre_point" ∈ without_geometry_recursive_select_columns := by
  have hbne : (parent_id != 0) = true := bne_iff_ne.2 h0
  refine ⟨?_, ?_, ?_, ?_, ?_, ?_, ?_, ?_, ?_⟩
  · simp [get_territories_without_geometry_by_parent_id_from_db, hex, hbne]
  · intro ts1 pid1
    rfl
  · intro ts1 lvl1
    cases lvl1 <;> rfl
  all_goals
    simp [without_geometry_plain_select_columns, without_geometry_seed_select_columns,
      without_geometry_recursive_select_columns]

/-- C2 witness: the three-level fixture store with the existing parent 1. -/
theorem without_geometry_projection_and_recursive_union_error_witness :
    ((1 : Nat) ≠ 0 ∧ wts.any (fun t => t.territory_id == 1) = true) ∧
    (get_territories_without_geometry_by_parent_id_from_db wts 1 true =
       Except.error (ApiError.unionColumnsMismatch
         without_geometry_seed_select_columns.length
         without_geometry_recursive_select_columns.length) ∧
     (∀ (ts1 : List Territory) (pid1 : Nat),
       get_territories_without_geometry_by_parent_id_from_db ts1 pid1 false =
         get_territories_by_parent_id_from_db ts1 pid1 false none) ∧
     (∀ (ts1 : List Territory) (lvl1 : Bool),
       get_territories_without_geometry_by_parent_id_from_db ts1 0 lvl1 =
         get_territories_by_parent_id_from_db ts1 0 lvl1 none) ∧
     "geometry" ∉ without_geometry_plain_select_columns ∧
     "centre_point" ∉ without_geometry_plain_select_columns ∧
     "geometry" ∉ without_geometry_seed_select_columns ∧
     "centre_point" ∉ without_geometry_seed_select_columns ∧
     "geometry" ∈ without_geometry_recursive_select_columns ∧
     "centre_point" ∈ without_geometry_recursive_select_columns) :=
  ⟨⟨by decide, by rfl⟩,
   without_geometry_projection_and_recursive_union_error wts 1 (by decide) (by rfl)⟩

/-! ## Claim C3 (territory creation with missing parent) -/

/-- C3 counterexample: on an empty store whose sequence generates id 1, a
creation spec naming the (absent) parent 1 does not fail and leaves one more
row in the store: the post-insert check finds the row just created, so the
claim fails when the requested parent id collides with the generated id. -/
theorem add_territory_self_parent_counterexample :
    selfParentPost.parent_id ≠ 0 ∧
    (([] : List Territory).any (fun t => t.territory_id == selfParentPost.parent_id)) = false ∧
    (add_territory_to_db (TerrState.mk [] 1) selfParentPost).1 =
      Except.ok { territory_id := 1, territory_type_id := none, parent_id := 1,
                  name := "loop", geometry := tgeom, level := 1, properties := [],
                  centre_point := tgeom, admin_center := none, okato_code := none } ∧
    (add_territory_to_db (TerrState.mk [] 1) selfParentPost).2.territories.length = 1 :=
  ⟨by decide, rfl, rfl, rfl⟩

/-- C3 (amended): when the non-zero parent id is neither in the store nor
equal to the id generated for the new row (the sequence value being fresh),
creation fails with the 404 and the compensating delete restores the
original territory count. -/
theorem add_territory_missing_parent_compensated (st : TerrState)
    (p : TerritoriesDataPost) (h0 : p.parent_id ≠ 0)
    (hmiss : st.territories.any (fun t => t.territory_id == p.parent_id) = false)
    (hneq : p.parent_id ≠ st.nextId)
    (hfresh : st.territories.all (fun t => t.territory_id != st.nextId) = true) :
    (add_territory_to_db st p).1 =
      Except.error (ApiError.httpException 404 "Given parent_id is not found") ∧
    (add_territory_to_db st p).2.territories.length = st.territories.length := by
  have hbne : (p.parent_id != 0) = true := bne_iff_ne.2 h0
  have h1 : (st.nextId == p.parent_id) = false := beq_eq_false_iff_ne.2 (Ne.symm hneq)
  have hkeep : st.territories.filter (fun t => t.territory_id != st.nextId) = st.territories :=
    List.filter_eq_self.2 (fun a ha => List.all_eq_true.1 hfresh a ha)
  constructor
  · simp [add_territory_to_db, hbne, List.any_append, hmiss, h1]
  · simp [add_territory_to_db, hbne, List.any_append, hmiss, h1, List.filter_append, hkeep]

/-- C3 witness: one-row store with next sequence value 2 and requested
parent 5. -/
theorem add_territory_missing_parent_compensated_witness :
    (missingParentPost.parent_id ≠ 0 ∧
     (TerrState.mk [wt1] 2).territories.any
       (fun t => t.territory_id == missingParentPost.parent_id) = false ∧
     missingParentPost.parent_id ≠ (TerrState.mk [wt1] 2).nextId ∧
     (TerrState.mk [wt1] 2).territories.all
       (fun t => t.territory_id != (TerrState.mk [wt1] 2).nextId) = true) ∧
    ((add_territory_to_db (TerrState.mk [wt1] 2) missingParentPost).1 =
      Except.error (ApiError.httpException 404 "Given parent_id is not found") ∧
     (add_territory_to_db (TerrState.mk [wt1] 2) missingParentPost).2.territories.length =
      (TerrState.mk [wt1] 2).territories.length) :=
  ⟨⟨by decide, by rfl, by decide, by rfl⟩,
   add_territory_missing_parent_compensated (TerrState.mk [wt1] 2) missingParentPost
     (by decide) (by rfl) (by decide) (by rfl)⟩

/-! ## Claims C4 and C5 (listByParent) -/

/-- Accumulated rows survive every CTE iteration. -/
theorem mem_cteIter_of_mem (ts : List Territory) :
    ∀ (n : Nat) (acc : List Territory) (t : Territory), t ∈ acc → t ∈ cteIter ts n acc := by
  intro n
  induction n with
  | zero => intro acc t h; simpa [cteIter] using h
  | succ n ih =>
    intro acc t h
    simp only [cteIter]
    split
    · exact h
    · exact ih _ _ (List.mem_append.2 (Or.inl h))

/-- Every row the CTE iteration accumulates keeps a parent chain to the
root, provided every starting row has one. -/
theorem cteIter_parentChain (ts : List Territory) (root : Nat) :
    ∀ (n : Nat) (acc : List Territory),
      (∀ a ∈ acc, ParentChain ts root a.territory_id) →
      ∀ t ∈ cteIter ts n acc, ParentChain ts root t.territory_id := by
  intro n
  induction n with
  | zero => intro acc hacc t ht; exact hacc t (by simpa [cteIter] using ht)
  | succ n ih =>
    intro acc hacc t ht
    simp only [cteIter] at ht
    split at ht
    · exact hacc t ht
    · refine ih _ ?_ t ht
      intro a ha
      rcases List.mem_append.1 ha with h1 | h2
      · exact hacc a h1
      · simp only [cteNewRows, List.mem_filter] at h2
        obtain ⟨hats, hpred⟩ := h2
        rw [Bool.and_eq_true] at hpred
        obtain ⟨hany, _⟩ := hpred
        obtain ⟨b, hb, hbeq⟩ := List.any_eq_true.1 hany
        have hpb : a.parent_id = b.territory_id := by simpa using hbeq
        have hchain := hacc b hb
        rw [← hpb] at hchain
        exact ParentChain.step hats hchain

/-- C4: for an existing non-root parent and no type filter, the recursive
listing returns the saturated CTE rows, the non-recursive one the direct
children; the former contains every row of the latter, and every territory
of the recursive result has a transitive parent chain terminating at the
requested parent. -/
theorem get_territories_recursive_superset_and_chain (ts : List Territory)
    (parent_id : Nat) (h0 : parent_id ≠ 0)
    (hex : ts.any (fun t => t.territory_id == parent_id) = true) :
    get_territories_by_parent_id_from_db ts parent_id true none =
      Except.ok (territoriesRecursiveCte ts parent_id) ∧
    get_territories_by_parent_id_from_db ts parent_id false none =
      Except.ok (ts.filter (fun t => t.parent_id == parent_id)) ∧
    (∀ t ∈ ts.filter (fun t => t.parent_id == parent_id),
      t ∈ territoriesRecursiveCte ts parent_id) ∧
    (∀ t ∈ territoriesRecursiveCte ts parent_id,
      ParentChain ts parent_id t.territory_id) := by
  have hbne : (parent_id != 0) = true := bne_iff_ne.2 h0
  refine ⟨?_, ?_, ?_, ?_⟩
  · simp [get_territories_by_parent_id_from_db, hex, hbne]
  · simp [get_territories_by_parent_id_from_db, hex, hbne]
  · intro t ht
    exact mem_cteIter_of_mem ts ts.length _ t ht
  · intro t ht
    refine cteIter_parentChain ts parent_id ts.length _ ?_ t ht
    intro a ha
    obtain ⟨hats, hpa⟩ := List.mem_filter.1 ha
    exact ParentChain.base hats (by simpa using hpa)

/-- C4 witness: the three-level fixture store with parent 1. -/
theorem get_territories_recursive_superset_and_chain_witness :
    ((1 : Nat) ≠ 0 ∧ wts.any (fun t => t.territory_id == 1) = true) ∧
    (get_territories_by_parent_id_from_db wts 1 true none =
       Except.ok (territoriesRecursiveCte wts 1) ∧
     get_territories_by_parent_id_from_db wts 1 false none =
       Except.ok (wts.filter (fun t => t.parent_id == 1)) ∧
     (∀ t ∈ wts.filter (fun t => t.parent_id == 1), t ∈ territoriesRecursiveCte wts 1) ∧
     (∀ t ∈ territoriesRecursiveCte wts 1, ParentChain wts 1 t.territory_id)) :=
  ⟨⟨by decide, by rfl⟩,
   get_territories_recursive_superset_and_chain wts 1 (by decide) (by rfl)⟩

/-- C5: at the root parent 0 the recursive flag is a no-op: for every store
and every territory-type filter the recursive and non-recursive calls return
the same result. -/
theorem get_territories_root_recursive_noop (ts : List Territory)
    (territory_type_id : Option Nat) :
    get_territories_by_parent_id_from_db ts 0 true territory_type_id =
      get_territories_by_parent_id_from_db ts 0 false territory_type_id := by
  cases territory_type_id <;> rfl

/-! ## Claim C8 (services capacity with absent type) -/

/-- C8 counterexample: with one joined service of non-null type and capacity
5 at territory 1, the call with an absent service type returns the null
aggregate while the unfiltered sum the claim describes is 5. -/
theorem services_capacity_null_filter_counterexample :
    get_services_capacity_by_territory_id_from_db capDb 1 none = Except.ok none ∧
    unfilteredCapacitySum capDb 1 = some 5 :=
  ⟨rfl, rfl⟩

/-- C8 (amended): for an existing territory and an absent service type the
equality predicate compiles to an IS NULL comparison, so the result is the
aggregate over exactly the joined services whose service_type_id is null
(null when there are none), not the unfiltered sum. -/
theorem services_capacity_null_filter (db : UrbanDb) (territory_id : Nat)
    (hex : db.territories.any (fun t => t.territory_id == territory_id) = true) :
    get_services_capacity_by_territory_id_from_db db territory_id none =
      Except.ok (nullTypeCapacitySum db territory_id) := by
  simp [get_services_capacity_by_territory_id_from_db, nullTypeCapacitySum, hex]

/-- C8 witness: the fixture database at territory 1. -/
theorem services_capacity_null_filter_witness :
    (capDb.territories.any (fun t => t.territory_id == 1) = true) ∧
    get_services_capacity_by_territory_id_from_db capDb 1 none =
      Except.ok (nullTypeCapacitySum capDb 1) :=
  ⟨by rfl, services_capacity_null_filter capDb 1 (by rfl)⟩

/-! ## Claim C9 (patch with only a name) -/

/-- C9: patching an existing project with a body containing only a name
rewrites exactly that project row (new name, updated_at stamped to now, all
other fields kept), leaves every territory-detail row untouched and issues
no update statement for projects_territory_data. -/
theorem patch_project_name_only_frame (st : ProjState) (project_id : Nat)
    (now : Nat) (x : String)
    (hex : st.projects.any (fun p => p.project_id == project_id) = true) :
    (patch_project_to_db st (namePatch x) project_id now).state.projects =
      st.projects.map (fun p =>
        if p.project_id == project_id then { p with name := x, updated_at := now }
        else p) ∧
    (patch_project_to_db st (namePatch x) project_id now).state.details = st.details ∧
    Stmt.updateProjectsTerritoryData ∉ (patch_project_to_db st (namePatch x) project_id now).trace := by
  have hsome : (st.projects.find? (fun p => p.project_id == project_id)).isSome = true :=
    List.find?_isSome.2 (List.any_eq_true.1 hex)
  obtain ⟨q, hq⟩ := Option.isSome_iff_exists.1 hsome
  refine ⟨?_, ?_, ?_⟩ <;>
    simp [patch_project_to_db, hq, namePatch, projectNewValues, territoryNewValues,
      ProjectNewValues.isEmpty, TerritoryNewValues.isEmpty, applyProjectUpdate]

/-- C9 witness: a one-project, one-detail store patched with only a name. -/
theorem patch_project_name_only_frame_witness :
    ((ProjState.mk [c1Project] [c9Detail]).projects.any
       (fun p => p.project_id == 1) = true) ∧
    ((patch_project_to_db (ProjState.mk [c1Project] [c9Detail]) (namePatch "X") 1 42).state.projects =
       (ProjState.mk [c1Project] [c9Detail]).projects.map (fun p =>
         if p.project_id == 1 then { p with name := "X", updated_at := 42 } else p) ∧
     (patch_project_to_db (ProjState.mk [c1Project] [c9Detail]) (namePatch "X") 1 42).state.details =
       (ProjState.mk [c1Project] [c9Detail]).details ∧
     Stmt.updateProjectsTerritoryData ∉
       (patch_project_to_db (ProjState.mk [c1Project] [c9Detail]) (namePatch "X") 1 42).trace) :=
  ⟨by rfl, patch_project_name_only_frame (ProjState.mk [c1Project] [c9Detail]) 1 42 "X" (by rfl)⟩

/-! ## Claim C10 (null geometry cells in the Feature builders) -/

/-- Keys of a duplicate-free association list identify entries uniquely. -/
theorem nodup_keys_inj {b : Type} {l : List (String × b)}
    (h : (l.map Prod.fst).Nodup) {x y : String × b}
    (hx : x ∈ l) (hy : y ∈ l) (hk : x.1 = y.1) : x = y := by
  induction l with
  | nil => cases hx
  | cons hd tl ih =>
    simp only [List.map_cons, List.nodup_cons] at h
    rcases List.mem_cons.1 hx with rfl | hx2
    · rcases List.mem_cons.1 hy with rfl | hy2
      · rfl
      · exact absurd (by rw [hk]; exact List.mem_map_of_mem Prod.fst hy2) h.1
    · rcases List.mem_cons.1 hy with rfl | hy2
      · exact absurd (by rw [← hk]; exact List.mem_map_of_mem Prod.fst hx2) h.1
      · exact ih h.2 hx2 hy2

/-- C10: on a duplicate-free row whose geometry cell is null, from_dict and
from_series with include_nulls false raise the KeyError because the null
filter drops the geometry entry before the lookup, while from_row reads the
geometry first and does not raise that KeyError: it fails later, at the
pydantic validation of the None geometry. -/
theorem feature_null_geometry_behaviour (row : FRow) (gcol : String)
    (hnodup : ((row : List (String × Option JVal)).map Prod.fst).Nodup)
    (hnull : rowGet row gcol = some none) :
    Feature.from_dict row gcol false = Except.error (FeatureErr.keyError gcol) ∧
    Feature.from_series row gcol false = Except.error (FeatureErr.keyError gcol) ∧
    Feature.from_row row gcol false = Except.error FeatureErr.validationError := by
  obtain ⟨e, hfind, he2⟩ : ∃ e, (row : List (String × Option JVal)).find?
      (fun kv => kv.1 == gcol) = some e ∧ e.2 = none := by
    unfold rowGet at hnull
    cases hfind : (row : List (String × Option JVal)).find? (fun kv => kv.1 == gcol) with
    | none => rw [hfind] at hnull; cases hnull
    | some e =>
      rw [hfind] at hnull
      exact ⟨e, rfl, by simpa using hnull⟩
  have hemem : e ∈ (row : List (String × Option JVal)) := List.mem_of_find?_eq_some hfind
  have hekey : e.1 = gcol := by
    have := List.find?_some hfind
    simpa using this
  have hgone : rowGet ((row : List (String × Option JVal)).filter
      (fun kv => kv.2.isSome)) gcol = none := by
    unfold rowGet
    rw [Option.map_eq_none']
    rw [List.find?_eq_none]
    intro kv hkv hbeq
    obtain ⟨hkvrow, hkvsome⟩ := List.mem_filter.1 hkv
    have hkvkey : kv.1 = gcol := by simpa using hbeq
    have : kv = e := nodup_keys_inj hnodup hkvrow hemem (by rw [hkvkey, hekey])
    rw [this, he2] at hkvsome
    cases hkvsome
  refine ⟨?_, ?_, ?_⟩
  · simp only [Feature.from_dict, Bool.false_eq_true, if_false, hgone]
  · simp only [Feature.from_series, Bool.false_eq_true, if_false, hgone]
  · simp [Feature.from_row, hnull, decodeIfStr, buildFeature, geometryFromJVal]

/-- C10 witness: the fixture row with a null geometry cell. -/
theorem feature_null_geometry_behaviour_witness :
    (((nullGeomRow : List (String × Option JVal)).map Prod.fst).Nodup ∧
     rowGet nullGeomRow "geometry" = some none) ∧
    (Feature.from_dict nullGeomRow "geometry" false =
       Except.error (FeatureErr.keyError "geometry") ∧
     Feature.from_series nullGeomRow "geometry" false =
       Except.error (FeatureErr.keyError "geometry") ∧
     Feature.from_row nullGeomRow "geometry" false =
       Except.error FeatureErr.validationError) :=
  ⟨⟨by decide, by rfl⟩,
   feature_null_geometry_behaviour nullGeomRow "geometry" (by decide) (by rfl)⟩


end UrbanApi
